import Mathlib

/-!
Verification of the PDF-extraction / generation / reconciliation pipeline
(`pdftocsv/test.py`, `curriculum-mappin/index.py` and its `v1`–`v3` variants).

The Python code is shallowly embedded: strings are Lean `String`s (lists of
characters), byte contents are `List Nat`, external capabilities
(SHA-256, the PDF text layer, OCR, `json.loads`, the generation model)
are parameters, and code that may raise is modelled with `Except`/`Option`.
-/

/-! ## Python string primitives -/

/-- The whitespace characters recognised by Python `str.strip()` and by the
regex class `\s` on `str` patterns: the six ASCII whitespace characters,
the C1 control separators, and the Unicode space characters. -/
def isPySpace (c : Char) : Bool :=
  c = ' ' || c = '\t' || c = '\n' || c = '\r' || c = '\x0b' || c = '\x0c' ||
  (0x1c ≤ c.toNat && c.toNat ≤ 0x1f) ||
  c.toNat = 0x85 || c.toNat = 0xa0 || c.toNat = 0x1680 ||
  (0x2000 ≤ c.toNat && c.toNat ≤ 0x200a) ||
  c.toNat = 0x2028 || c.toNat = 0x2029 || c.toNat = 0x202f ||
  c.toNat = 0x205f || c.toNat = 0x3000

/-- Drop the characters satisfying `p` from the end of a list. -/
def dropTrailing (p : Char → Bool) (l : List Char) : List Char :=
  (l.reverse.dropWhile p).reverse

/-- Python `s.strip()` on the character list of `s`. -/
def pyStrip (l : List Char) : List Char :=
  dropTrailing isPySpace (l.dropWhile isPySpace)

/-- Python `s.strip(chars)` for a one-character `chars` argument. -/
def pyStripChar (c : Char) (l : List Char) : List Char :=
  dropTrailing (fun x => x = c) (l.dropWhile (fun x => x = c))

/-- Python `s.lower()` (ASCII case folding suffices for the inputs used). -/
def pyLower (s : String) : String :=
  ⟨s.data.map Char.toLower⟩

/-- Python substring containment `needle in hay`. -/
def pyContains (hay needle : List Char) : Bool :=
  needle.isPrefixOf hay ||
    match hay with
    | [] => false
    | _ :: t => pyContains t needle

/-- Python slice `s[:-n]` on a character list. -/
def pyDropLast (n : Nat) (l : List Char) : List Char :=
  l.take (l.length - n)

/-- The regex class `[a-zA-Z0-9]`. -/
def isAlnumAscii (c : Char) : Bool :=
  ('a' ≤ c && c ≤ 'z') || ('A' ≤ c && c ≤ 'Z') || ('0' ≤ c && c ≤ '9')

/-! ## ContentHasher (`generate_csv_from_text` cache key)

`request_hash = hashlib.sha256((pdf_text + user_prompt).encode("utf-8")).hexdigest()`
(`pdftocsv/test.py` line 76, `curriculum-mappin/index.py` line 95).
The digest itself is an external capability `sha`; UTF-8 encoding of a
string is injective, so the message is kept at the string level. -/

/-- The exact string that is UTF-8 encoded and digested to form the
generation cache key: the concatenation `pdf_text + user_prompt`. -/
def request_message (pdf_text user_prompt : String) : String :=
  pdf_text ++ user_prompt

/-- The generation cache key: the hex digest of the concatenated message,
for an arbitrary digest function `sha` (modelling SHA-256 ∘ UTF-8). -/
def request_hash (sha : String → String) (pdf_text user_prompt : String) : String :=
  sha (request_message pdf_text user_prompt)

/-! ## QualityGate (`looks_like_bad_text`)

`pdftocsv/test.py` lines 33–38, `curriculum-mappin/index.py` lines 47–53:
reject when `len(text.strip()) < 50`, otherwise when
`len(re.findall(r"[^a-zA-Z0-9\s]", text)) / max(len(text), 1) > 0.5`.
The float comparison is embedded as the exact rational comparison. -/

/-- Number of characters of `text` that are neither ASCII alphanumeric nor
whitespace: `len(re.findall(r"[^a-zA-Z0-9\s]", text))`. -/
def nonAlnumCount (l : List Char) : Nat :=
  l.countP (fun c => !(isAlnumAscii c || isPySpace c))

/-- `looks_like_bad_text` from the source: too short after trimming, or a
non-alphanumeric ratio above one half.  The float test
`count / max(len, 1) > 0.5` is embedded as the exactly equivalent integer
comparison `max(len, 1) < 2 * count` (both sides are exact here; the
rational form is recovered in `looks_like_bad_text_ratio`). -/
def looks_like_bad_text (text : String) : Bool :=
  if (pyStrip text.data).length < 50 then true
  else decide (max text.data.length 1 < 2 * nonAlnumCount text.data)

/-! ## Theorems for C1 -/

/-- C1, counterexample: the pairs `("ab", "c")` and `("a", "bc")` differ in
both components, yet their digest inputs — hence their cache keys, for any
digest function whatsoever — coincide exactly, not merely by digest
collision. -/
theorem request_hash_pair_collision :
    request_message "ab" "c" = request_message "a" "bc" ∧
    ("ab", "c") ≠ (("a", "bc") : String × String) := by
  constructor
  · rfl
  · decide

/-- C1, amended: changing the instruction while holding the payload fixed
always changes the concatenated digest input, so the derived cache keys can
only coincide through a digest collision on distinct messages; full
pair-injectivity fails (see the counterexample) because concatenation can
identify pairs that differ in both components. -/
theorem request_hash_instruction_sensitive (p i₁ i₂ : String) (h : i₁ ≠ i₂) :
    request_message p i₁ ≠ request_message p i₂ ∧
    ∀ sha : String → String, request_hash sha p i₁ = request_hash sha p i₂ →
      ∃ m₁ m₂ : String, m₁ ≠ m₂ ∧ sha m₁ = sha m₂ := by
  have hmsg : request_message p i₁ ≠ request_message p i₂ := by
    intro he
    exact h (by
      have : p.data ++ i₁.data = p.data ++ i₂.data := by
        have := congrArg String.data he
        simpa [request_message, String.data_append] using this
      have hd : i₁.data = i₂.data := List.append_cancel_left this
      cases i₁; cases i₂; exact congrArg String.mk hd)
  refine ⟨hmsg, fun sha hkey => ⟨request_message p i₁, request_message p i₂, hmsg, hkey⟩⟩

/-- C1, witness: the amended theorem applied at payload `"x"` and the
distinct instructions `"a"`, `"b"`. -/
theorem request_hash_instruction_sensitive_witness :
    request_message "x" "a" ≠ request_message "x" "b" ∧
    ∀ sha : String → String, request_hash sha "x" "a" = request_hash sha "x" "b" →
      ∃ m₁ m₂ : String, m₁ ≠ m₂ ∧ sha m₁ = sha m₂ :=
  request_hash_instruction_sensitive "x" "a" "b" (by decide)

/-! ## Theorems for C4 -/

/-- Trimming never lengthens a string. -/
theorem pyStrip_length_le (l : List Char) : (pyStrip l).length ≤ l.length := by
  unfold pyStrip dropTrailing
  calc ((l.dropWhile isPySpace).reverse.dropWhile isPySpace).reverse.length
      = ((l.dropWhile isPySpace).reverse.dropWhile isPySpace).length := List.length_reverse _
    _ ≤ (l.dropWhile isPySpace).reverse.length := (List.dropWhile_sublist _).length_le
    _ = (l.dropWhile isPySpace).length := List.length_reverse _
    _ ≤ l.length := (List.dropWhile_sublist _).length_le

/-- The integer comparison used in `looks_like_bad_text` is exactly the
rational comparison `count / len > 1/2` whenever the text is nonempty. -/
theorem looks_like_bad_text_ratio (c L : Nat) (hL : 0 < L) :
    (max L 1 < 2 * c) ↔ (1 : ℚ) / 2 < (c : ℚ) / (L : ℚ) := by
  have hmax : max L 1 = L := by omega
  rw [hmax, div_lt_div_iff₀ (by norm_num) (by exact_mod_cast hL)]
  rw [one_mul]
  constructor
  · intro h
    have : (L : ℚ) < 2 * (c : ℚ) := by exact_mod_cast h
    linarith
  · intro h
    have : (L : ℚ) < 2 * (c : ℚ) := by linarith
    exact_mod_cast this

/-- Any text of length below 50 fails the quality gate (its trimmed length is
no larger). -/
theorem short_is_bad (s : String) (h : s.data.length < 50) :
    looks_like_bad_text s = true := by
  unfold looks_like_bad_text
  have : (pyStrip s.data).length < 50 := lt_of_le_of_lt (pyStrip_length_le _) h
  simp [this]

/-- C4: the quality gate rejects exactly the texts whose trimmed length is
below 50 or whose ratio of characters neither alphanumeric nor whitespace to
total length exceeds one half; in particular every 49-character string is
rejected, 50 plain alphabetic characters are accepted, and a 100-character
string that is 60 % punctuation is rejected. -/
theorem looks_like_bad_text_spec :
    (∀ s : String, looks_like_bad_text s = true ↔
      ((pyStrip s.data).length < 50 ∨
        (1 : ℚ) / 2 < (nonAlnumCount s.data : ℚ) / (s.data.length : ℚ))) ∧
    (∀ s : String, s.data.length = 49 → looks_like_bad_text s = true) ∧
    looks_like_bad_text ⟨List.replicate 50 'a'⟩ = false ∧
    looks_like_bad_text ⟨List.replicate 60 '.' ++ List.replicate 40 'a'⟩ = true := by
  refine ⟨fun s => ?_, fun s h => short_is_bad s (by omega), by decide, by decide⟩
  unfold looks_like_bad_text
  by_cases h : (pyStrip s.data).length < 50
  · simp [h]
  · have hlen : 0 < s.data.length := by
      have := pyStrip_length_le s.data
      omega
    simp only [h, if_false, decide_eq_true_eq,
      looks_like_bad_text_ratio _ _ hlen]
    constructor
    · exact fun hr => Or.inr hr
    · rintro (hr | hr)
      · exact hr.elim
      · exact hr

/-- C4, witness: the universally quantified parts of the gate theorem applied
at the 49-character string of letters `b`. -/
theorem looks_like_bad_text_spec_witness :
    (List.replicate 49 'b').length = 49 ∧
    looks_like_bad_text ⟨List.replicate 49 'b'⟩ = true :=
  ⟨by decide, looks_like_bad_text_spec.2.1 ⟨List.replicate 49 'b'⟩ (by decide)⟩

/-! ## TextExtractor (`get_pdf_text`, `extract_text_with_ocr`)

`curriculum-mappin/index.py` lines 32–91 (and `pdftocsv/test.py` lines
24–68): the primary pdfplumber pass builds page-tagged text; on a
pdfplumber error, or when the result fails the quality gate, the OCR
fallback is used; the result is cached under the SHA-256 of the PDF bytes.
pdfplumber and OCR are external capabilities collected in `PdfEnv`;
the byte content is a `List Nat` and `sha` models
`hashlib.sha256(...).hexdigest()`. -/

/-- External extraction capabilities for one document: the pdfplumber text
layer (`.error` when `pdfplumber.open`/iteration raises; each page's
`extract_text()` may be `none`) and the per-page OCR output. -/
structure PdfEnv where
  pages : Except Unit (List (Option String))
  ocrPages : List String

/-- One page block of the primary pass:
`f"--- Page {i} Content ---\n{extracted}\n\n"`. -/
def pageBlock (i : Nat) (body : String) : String :=
  "--- Page " ++ toString i ++ " Content ---\n" ++ body ++ "\n\n"

/-- The concatenated text of the primary pdfplumber pass
(`extracted = page.extract_text() or ""`). -/
def primaryText (ps : List (Option String)) : String :=
  ((ps.enumFrom 1).map (fun p => pageBlock p.1 (p.2.getD ""))).foldl (· ++ ·) ""

/-- One page block of the OCR pass:
`f"--- OCR Page {i} Content ---\n{extracted}\n\n"`. -/
def ocrPageBlock (i : Nat) (body : String) : String :=
  "--- OCR Page " ++ toString i ++ " Content ---\n" ++ body ++ "\n\n"

/-- `extract_text_with_ocr`: concatenated page-delimited OCR output. -/
def extract_text_with_ocr (ps : List String) : String :=
  ((ps.enumFrom 1).map (fun p => ocrPageBlock p.1 p.2)).foldl (· ++ ·) ""

/-- The `.cache` directory, as a map from the hex key to the cached text. -/
def TextCache : Type := String → Option String

/-- Writing one cache file. -/
def cacheInsert (cache : TextCache) (k v : String) : TextCache :=
  fun x => if x = k then some v else cache x

/-- Result of one `get_pdf_text` call: the returned text, the cache
afterwards, and how often the primary extractor and the OCR capability
were exercised during the call. -/
structure ExtractResult where
  text : String
  cache : TextCache
  primaryCalls : Nat
  ocrCalls : Nat

/-- `get_pdf_text` from `curriculum-mappin/index.py`: return the cached
text when a cache file for the content hash exists; otherwise run the
primary pass (falling back to OCR when it raises), run OCR when the
quality gate rejects the primary text, and cache the result. -/
def get_pdf_text (env : PdfEnv) (sha : List Nat → String) (cache : TextCache)
    (pdf_bytes : List Nat) : ExtractResult :=
  match cache (sha pdf_bytes) with
  | some t => ⟨t, cache, 0, 0⟩
  | none =>
    match env.pages with
    | .error _ =>
      let t := extract_text_with_ocr env.ocrPages
      ⟨t, cacheInsert cache (sha pdf_bytes) t, 1, 1⟩
    | .ok ps =>
      let t := primaryText ps
      if looks_like_bad_text t then
        let t2 := extract_text_with_ocr env.ocrPages
        ⟨t2, cacheInsert cache (sha pdf_bytes) t2, 1, 1⟩
      else
        ⟨t, cacheInsert cache (sha pdf_bytes) t, 1, 0⟩

/-! ## Theorems for C2 -/

/-- After any `get_pdf_text` call, the produced text is cached under the
content's fingerprint. -/
theorem get_pdf_text_caches (env : PdfEnv) (sha : List Nat → String)
    (cache : TextCache) (b : List Nat) :
    (get_pdf_text env sha cache b).cache (sha b)
      = some (get_pdf_text env sha cache b).text := by
  unfold get_pdf_text cacheInsert
  cases h : cache (sha b) with
  | some t => simp [h]
  | none =>
    cases hp : env.pages with
    | error e => simp [h, hp]
    | ok ps =>
      by_cases hb : looks_like_bad_text (primaryText ps) <;> simp [h, hp, hb]

/-- C2: calling `get_pdf_text` twice with byte-identical content returns the
identical text both times; the second call does no primary-extraction and no
OCR work, returns exactly the value cached under the content's fingerprint,
and leaves the cache unchanged. -/
theorem get_pdf_text_idempotent (env : PdfEnv) (sha : List Nat → String)
    (cache : TextCache) (b : List Nat) :
    (get_pdf_text env sha (get_pdf_text env sha cache b).cache b).text
        = (get_pdf_text env sha cache b).text ∧
    (get_pdf_text env sha cache b).cache (sha b)
        = some (get_pdf_text env sha cache b).text ∧
    (get_pdf_text env sha (get_pdf_text env sha cache b).cache b).primaryCalls = 0 ∧
    (get_pdf_text env sha (get_pdf_text env sha cache b).cache b).ocrCalls = 0 ∧
    (get_pdf_text env sha (get_pdf_text env sha cache b).cache b).cache
        = (get_pdf_text env sha cache b).cache := by
  have hc := get_pdf_text_caches env sha cache b
  refine ⟨?_, hc, ?_, ?_, ?_⟩ <;>
    · conv_lhs => rw [get_pdf_text]
      rw [hc]

/-! ## Theorems for C5 -/

/-- C5: on a fresh (uncached) document whose primary text-layer pass yields a
string shorter than 50 characters, `get_pdf_text` takes the OCR fallback:
the OCR capability runs exactly once and its page-delimited output is
returned in place of the primary result. -/
theorem get_pdf_text_short_primary_ocr (env : PdfEnv) (sha : List Nat → String)
    (cache : TextCache) (b : List Nat) (ps : List (Option String))
    (hmiss : cache (sha b) = none)
    (hps : env.pages = .ok ps)
    (hshort : (primaryText ps).data.length < 50) :
    (get_pdf_text env sha cache b).text = extract_text_with_ocr env.ocrPages ∧
    (get_pdf_text env sha cache b).ocrCalls = 1 := by
  have hbad : looks_like_bad_text (primaryText ps) = true :=
    short_is_bad _ hshort
  unfold get_pdf_text
  rw [hmiss, hps]
  simp [hbad]

/-- C5, witness: a one-page document whose text layer returns the empty
string; the marker-wrapped primary text has 25 characters, so the gate
rejects it and the OCR text is returned. -/
theorem get_pdf_text_short_primary_ocr_witness :
    ((fun _ => none : TextCache) ((fun _ => "k") ([] : List Nat)) = none ∧
     (PdfEnv.mk (.ok [some ""]) ["ocr text"]).pages = .ok [some ""] ∧
     (primaryText [some ""]).data.length < 50) ∧
    ((get_pdf_text ⟨.ok [some ""], ["ocr text"]⟩ (fun _ => "k") (fun _ => none) []).text
        = extract_text_with_ocr ["ocr text"] ∧
     (get_pdf_text ⟨.ok [some ""], ["ocr text"]⟩ (fun _ => "k") (fun _ => none) []).ocrCalls = 1) :=
  ⟨⟨rfl, rfl, by decide⟩,
    get_pdf_text_short_primary_ocr ⟨.ok [some ""], ["ocr text"]⟩ (fun _ => "k")
      (fun _ => none) [] [some ""] rfl rfl (by decide)⟩

/-! ## ResponseNormalizer, CSV contract (`generate_csv_from_text`)

`pdftocsv/test.py` lines 112–118, `curriculum-mappin/index.py` lines
120–133: the raw model response is trimmed, then
`if csv_output.startswith("```csv"): csv_output = csv_output[5:].strip()`
and `if csv_output.endswith("```"): csv_output = csv_output[:-3].strip()`.
Note the `[5:]` slice against the six-character prefix. -/

/-- The response-cleaning step of `generate_csv_from_text`, applied to
`response.text`. -/
def generate_csv_clean (raw : String) : String :=
  let c0 := pyStrip raw.data
  let c1 := if ("```csv".data.isPrefixOf c0) then pyStrip (c0.drop 5) else c0
  let c2 := if ("```".data.isSuffixOf c1) then pyStrip (pyDropLast 3 c1) else c1
  ⟨c2⟩

/-! ## Theorems for C6 -/

/-- C6: on a fenced response ```` ```csv\n<body>\n``` ````, the cleanup of
`generate_csv_from_text` does not return the bare body: the `[5:]` slice
removes only five of the six characters of the leading marker `` ```csv ``,
so a stray `v` remains at the front of the returned (and cached) string. -/
theorem generate_csv_clean_leaves_marker :
    generate_csv_clean "```csv\nA,B\n1,2\n```" = "v\nA,B\n1,2" ∧
    generate_csv_clean "```csv\nA,B\n1,2\n```" ≠ "A,B\n1,2" := by
  constructor
  · decide
  · decide

/-! ## Chunker (`extract_pdf_data` chunking step)

`curriculum-mappin/v1/index2.py` line 114 and
`curriculum-mappin/v1/index2_backup.py` lines 109–110:
`chunks = [pdf_text[i:i + MAX] for i in range(0, len(pdf_text), MAX)]`. -/

/-- Python `range(start, stop, step)` over naturals, in closed form: for
`step > 0` its elements are `start + k*step` for
`k < ceil((stop - start) / step)` (`range` with step `0` raises in Python
and is never used here; it is mapped to `[]`). -/
def pyRange (start stop step : Nat) : List Nat :=
  if step = 0 then []
  else (List.range ((stop - start + step - 1) / step)).map (fun k => start + k * step)

/-- The chunking comprehension on the character list of the text:
`[pdf_text[i:i + maxChars] for i in range(0, len(pdf_text), maxChars)]`. -/
def listChunks (l : List Char) (maxChars : Nat) : List (List Char) :=
  (pyRange 0 l.length maxChars).map (fun i => (l.drop i).take maxChars)

/-- The chunking step of `extract_pdf_data`, at the string level. -/
def extract_pdf_chunks (text : String) (maxChars : Nat) : List String :=
  (listChunks text.data maxChars).map String.mk

/-! ## Theorems for C3 -/

/-- The length of a string is the length of its character list. -/
theorem string_length_data (s : String) : s.length = s.data.length := rfl

/-- Ceiling division bound: `L ≤ ceil(L/M) * M`. -/
theorem ceil_div_mul_le (L M : Nat) (hM : 0 < M) :
    L ≤ ((L + M - 1) / M) * M := by
  have hdm := Nat.div_add_mod (L + M - 1) M
  have hmod : (L + M - 1) % M < M := Nat.mod_lt _ hM
  have hcomm : M * ((L + M - 1) / M) = ((L + M - 1) / M) * M := Nat.mul_comm _ _
  omega

/-- Joining the stride-`M` slices of `l` recovers `l`, as soon as `n*M`
covers the length. -/
theorem join_stride_slices (M : Nat) (hM : 0 < M) :
    ∀ (n : Nat) (l : List Char), l.length ≤ n * M →
      ((List.range n).map (fun k => (l.drop (k * M)).take M)).flatten = l := by
  intro n
  induction n with
  | zero =>
    intro l hl
    simp only [Nat.zero_mul, Nat.le_zero] at hl
    simp [List.eq_nil_of_length_eq_zero hl]
  | succ n ih =>
    intro l hl
    have hl' : (l.drop M).length ≤ n * M := by
      rw [List.length_drop]
      have : (n + 1) * M = n * M + M := by ring
      omega
    rw [List.range_succ_eq_map, List.map_cons, List.map_map, List.flatten_cons]
    have hmap :
        ((List.range n).map ((fun k => (l.drop (k * M)).take M) ∘ Nat.succ)) =
          ((List.range n).map (fun k => ((l.drop M).drop (k * M)).take M)) := by
      refine List.map_congr_left (fun k _ => ?_)
      show (l.drop (Nat.succ k * M)).take M = ((l.drop M).drop (k * M)).take M
      rw [List.drop_drop]
      congr 2
      rw [Nat.succ_mul]; omega
    rw [hmap, ih (l.drop M) hl']
    simpa using List.take_append_drop M l

/-- Joining the `String.mk`s of character lists is `String.mk` of the
concatenation. -/
theorem join_map_mk (ls : List (List Char)) :
    String.join (ls.map String.mk) = ⟨ls.flatten⟩ := by
  suffices h : ∀ acc : List Char,
      (ls.map String.mk).foldl (fun r s => r ++ s) ⟨acc⟩ = ⟨acc ++ ls.flatten⟩ by
    simpa [String.join] using h []
  induction ls with
  | nil => intro acc; simp
  | cons a as ih =>
    intro acc
    have happ : (⟨acc⟩ : String) ++ ⟨a⟩ = ⟨acc ++ a⟩ := rfl
    simp only [List.map_cons, List.foldl_cons, happ, ih, List.flatten_cons,
      List.append_assoc]

/-- C3: for `maxChars > 0`, chunking produces exactly
`ceil(len(text)/maxChars)` chunks, every chunk has at most `maxChars`
characters, and joining the chunks in order reproduces the text exactly. -/
theorem extract_pdf_chunks_spec (t : String) (M : Nat) (hM : 0 < M) :
    (extract_pdf_chunks t M).length = (t.length + M - 1) / M ∧
    (∀ c ∈ extract_pdf_chunks t M, c.length ≤ M) ∧
    String.join (extract_pdf_chunks t M) = t := by
  have hM0 : M ≠ 0 := Nat.pos_iff_ne_zero.mp hM
  refine ⟨?_, ?_, ?_⟩
  · unfold extract_pdf_chunks listChunks pyRange
    rw [if_neg hM0, string_length_data]
    simp
  · intro c hc
    simp only [extract_pdf_chunks, listChunks, pyRange, hM0, if_false,
      List.map_map, List.mem_map] at hc
    obtain ⟨i, _, rfl⟩ := hc
    rw [string_length_data]
    simpa [Function.comp] using List.length_take_le _ _
  · have hchunks : listChunks t.data M =
        (List.range ((t.data.length + M - 1) / M)).map
          (fun k => (t.data.drop (k * M)).take M) := by
      simp [listChunks, pyRange, hM0, List.map_map, Function.comp]
    rw [extract_pdf_chunks, hchunks, join_map_mk,
      join_stride_slices M hM _ t.data (ceil_div_mul_le t.data.length M hM)]

/-- C3, witness: chunking the five-character string `abcde` with maximum
size `2` yields three chunks of sizes `2, 2, 1` that join back to the
original. -/
theorem extract_pdf_chunks_spec_witness :
    0 < 2 ∧
    ((extract_pdf_chunks "abcde" 2).length = ("abcde".length + 2 - 1) / 2 ∧
     (∀ c ∈ extract_pdf_chunks "abcde" 2, c.length ≤ 2) ∧
     String.join (extract_pdf_chunks "abcde" 2) = "abcde") :=
  ⟨by decide, extract_pdf_chunks_spec "abcde" 2 (by decide)⟩

/-! ## ResponseNormalizer, JSON contract (`safe_json_loads`)

`curriculum-mappin/v1/index2.py` lines 63–80.  `json.loads` is an external
capability `loads : String → Except String J` (an exception becomes
`.error`); the regex rewrites are embedded as character-list scanners driven
by a fuel argument equal to the list length (each step consumes at least one
character, so the fuel never runs out). -/

/-- One pass of `re.sub(r"^```json|```$", "", clean, flags=re.MULTILINE)`:
`atStart` records whether the scanner sits at the start of a line. -/
def fenceSubAux : Nat → Bool → List Char → List Char
  | 0, _, cs => cs
  | fuel + 1, atStart, cs =>
    if atStart && "```json".data.isPrefixOf cs then
      fenceSubAux fuel false (cs.drop 7)
    else if "```".data.isPrefixOf cs &&
        (cs.drop 3 = [] || (cs.drop 3).head? = some '\n') then
      fenceSubAux fuel false (cs.drop 3)
    else
      match cs with
      | [] => []
      | c :: rest => c :: fenceSubAux fuel (c = '\n') rest

/-- `re.sub(r"^```json|```$", "", clean, flags=re.MULTILINE)`. -/
def fenceSub (l : List Char) : List Char :=
  fenceSubAux l.length true l

/-- `re.sub(r",\s*X", "X", clean)` for a closing bracket `X`: a comma whose
next non-whitespace character is `close` is dropped together with the
intervening whitespace. -/
def commaCloseAux (close : Char) : Nat → List Char → List Char
  | 0, cs => cs
  | fuel + 1, cs =>
    match cs with
    | [] => []
    | c :: rest =>
      if c = ',' && (rest.dropWhile isPySpace).head? = some close then
        close :: commaCloseAux close fuel (rest.dropWhile isPySpace).tail
      else
        c :: commaCloseAux close fuel rest

/-- `re.sub(r",\s*}", "}", ...)` wrapper. -/
def commaCloseSub (close : Char) (l : List Char) : List Char :=
  commaCloseAux close l.length l

/-- `clean.replace("\n", " ")`. -/
def newlineToSpace (l : List Char) : List Char :=
  l.map (fun c => if c = '\n' then ' ' else c)

/-- The full cleaning chain of `safe_json_loads`:
`raw.strip().strip("`").strip()`, the multiline fence removal plus `strip`,
the two trailing-comma rewrites, and the newline collapse. -/
def cleanJsonText (raw : String) : String :=
  ⟨newlineToSpace (commaCloseSub ']' (commaCloseSub '}'
    (pyStrip (fenceSub (pyStrip (pyStripChar '`' (pyStrip raw.data)))))))⟩

/-- Index of the last occurrence of `c` in `l`. -/
def lastIdxOf (c : Char) (l : List Char) : Option Nat :=
  match l.reverse.findIdx? (fun x => x = c) with
  | none => none
  | some k => some (l.length - 1 - k)

/-- `re.search(r"\[.*\]", clean, re.DOTALL)`: the greedy dot-all match runs
from the first `[` to the last `]` of the whole string, when the latter lies
beyond the former. -/
def firstJsonArraySeg (l : List Char) : Option (List Char) :=
  match l.findIdx? (fun x => x = '['), lastIdxOf ']' l with
  | some i, some j => if i < j then some ((l.drop i).take (j + 1 - i)) else none
  | _, _ => none

/-- `safe_json_loads`: clean the raw text, try a strict parse, then a parse
of the first bracketed array substring, and degrade to `none` when both
fail (every exception of the parser is caught). -/
def safe_json_loads {J : Type} (loads : String → Except String J)
    (raw : String) : Option J :=
  let clean := cleanJsonText raw
  match loads clean with
  | .ok v => some v
  | .error _ =>
    match firstJsonArraySeg clean.data with
    | some seg =>
      match loads ⟨seg⟩ with
      | .ok v => some v
      | .error _ => none
    | none => none

/-! ## Theorems for C8 -/

/-- C8: for every parser behaviour and every input string,
`safe_json_loads` terminates with a value rather than an exception: it
returns the strict parse of the cleaned text when that parse succeeds,
otherwise the parse of the first bracketed array substring when that
succeeds, and otherwise the "no structured data" value `none` — exactly
when both parse attempts fail. -/
theorem safe_json_loads_spec {J : Type} (loads : String → Except String J)
    (raw : String) :
    (∃ v, safe_json_loads loads raw = some v ∧
      (loads (cleanJsonText raw) = .ok v ∨
        ∃ seg, firstJsonArraySeg (cleanJsonText raw).data = some seg ∧
          loads ⟨seg⟩ = .ok v)) ∨
    (safe_json_loads loads raw = none ∧
      (∀ v, loads (cleanJsonText raw) ≠ .ok v) ∧
      (∀ seg v, firstJsonArraySeg (cleanJsonText raw).data = some seg →
        loads ⟨seg⟩ ≠ .ok v)) := by
  have hdef : safe_json_loads loads raw =
      (match loads (cleanJsonText raw) with
       | .ok v => some v
       | .error _ =>
         match firstJsonArraySeg (cleanJsonText raw).data with
         | some seg =>
           match loads ⟨seg⟩ with
           | .ok v => some v
           | .error _ => none
         | none => none) := rfl
  rw [hdef]
  generalize cleanJsonText raw = C
  cases h1 : loads C with
  | ok v => exact Or.inl ⟨v, by simp, Or.inl rfl⟩
  | error e =>
    cases h2 : firstJsonArraySeg C.data with
    | none =>
      exact Or.inr ⟨by simp, fun v hv => Except.noConfusion hv,
        fun seg v hseg => Option.noConfusion hseg⟩
    | some seg =>
      cases h3 : loads ⟨seg⟩ with
      | ok v => exact Or.inl ⟨v, by simp [h3], Or.inr ⟨seg, rfl, h3⟩⟩
      | error e2 =>
        refine Or.inr ⟨by simp [h3], fun v hv => Except.noConfusion hv, ?_⟩
        intro seg2 v hseg hv
        injection hseg with hs
        subst hs
        rw [h3] at hv
        exact Except.noConfusion hv

/-- A concrete parser behaviour used to witness the normalizer theorems:
it accepts exactly the text `[1]`. -/
def listNatLoads : String → Except String (List Nat) :=
  fun s => if s = "[1]" then .ok [1] else .error "invalid JSON"

/-- C8, witness: the normalizer theorem applied to the concrete parser and
the unparseable input `nonsense`. -/
theorem safe_json_loads_spec_witness :
    (∃ v, safe_json_loads listNatLoads "nonsense" = some v ∧
      (listNatLoads (cleanJsonText "nonsense") = .ok v ∨
        ∃ seg, firstJsonArraySeg (cleanJsonText "nonsense").data = some seg ∧
          listNatLoads ⟨seg⟩ = .ok v)) ∨
    (safe_json_loads listNatLoads "nonsense" = none ∧
      (∀ v, listNatLoads (cleanJsonText "nonsense") ≠ .ok v) ∧
      (∀ seg v, firstJsonArraySeg (cleanJsonText "nonsense").data = some seg →
        listNatLoads ⟨seg⟩ ≠ .ok v)) :=
  safe_json_loads_spec listNatLoads "nonsense"

/-! ## Chunk-result merging (`extract_pdf_data` loop)

`curriculum-mappin/v1/index2.py` lines 117–141: per chunk,
`data = safe_json_loads(text_output)`; `if data: all_results.extend(data)`;
after the loop, `if not all_results: return error`.  `json.loads` may
return any JSON value, so the parser is `loads : String → Except String Json`
over a JSON value type: `if data` is Python truthiness of that value, and
`all_results.extend(data)` appends an array element-wise, spreads a
dictionary into its keys and a string into its one-character strings, and
raises `TypeError` on a number or boolean — which the route-level
`except Exception` turns into a whole-job error. -/

/-- A JSON value as returned by `json.loads` (numbers carried as integers;
only their zero-ness matters to the truthiness test used here). -/
inductive Json where
  | arr : List Json → Json
  | obj : List (String × Json) → Json
  | str : String → Json
  | num : Int → Json
  | bool : Bool → Json
  | null : Json

/-- Python truthiness of a JSON value (`if data:`). -/
def pyTruthy : Json → Bool
  | .arr l => !l.isEmpty
  | .obj kvs => !kvs.isEmpty
  | .str s => !s.data.isEmpty
  | .num n => decide (n ≠ 0)
  | .bool b => b
  | .null => false

/-- Python `all_results.extend(data)` on a JSON value: an array extends
element-wise, a dictionary spreads its keys, a string its characters, and
a number or boolean raises `TypeError`. -/
def pyExtendJson (acc : List Json) : Json → Except String (List Json)
  | .arr l => .ok (acc ++ l)
  | .obj kvs => .ok (acc ++ kvs.map (fun kv => Json.str kv.1))
  | .str s => .ok (acc ++ s.data.map (fun c => Json.str ⟨[c]⟩))
  | .num _ => .error "TypeError: object is not iterable"
  | .bool _ => .error "TypeError: object is not iterable"
  | .null => .error "TypeError: object is not iterable"

/-- The per-chunk loop of `extract_pdf_data`: skip falsy parse results,
extend with truthy ones; an exception raised by `extend` propagates and
aborts the job. -/
def extract_pdf_data_loop (loads : String → Except String Json) :
    List String → List Json → Except String (List Json)
  | [], acc => .ok acc
  | r :: rs, acc =>
    match safe_json_loads loads r with
    | none => extract_pdf_data_loop loads rs acc
    | some d =>
      if pyTruthy d then
        match pyExtendJson acc d with
        | .ok acc2 => extract_pdf_data_loop loads rs acc2
        | .error e => .error e
      else extract_pdf_data_loop loads rs acc

/-- `extract_pdf_data`'s merge: run the loop over all chunk responses, then
`if not all_results: return error`. -/
def extract_pdf_data_merge (loads : String → Except String Json)
    (responses : List String) : Except String (List Json) :=
  match extract_pdf_data_loop loads responses [] with
  | .error e => .error e
  | .ok all => if all.isEmpty
      then Except.error "No valid structured data returned"
      else Except.ok all

/-- The records one chunk's response contributes when it parses to an
array: its elements; a failed parse contributes nothing. -/
def chunkRecords (loads : String → Except String Json) (r : String) :
    List Json :=
  match safe_json_loads loads r with
  | some (Json.arr l) => l
  | _ => []

/-- A concrete parser behaviour used for the merge counterexample and
witness: it accepts the array text `[1]`, the scalar text `5` and the
object text `{"k": 1}`. -/
def jsonDemoLoads : String → Except String Json :=
  fun s =>
    if s = "[1]" then .ok (Json.arr [Json.num 1])
    else if s = "5" then .ok (Json.num 5)
    else if s = "\x7b\"k\": 1\x7d" then .ok (Json.obj [("k", Json.num 1)])
    else .error "invalid JSON"

/-! ## Theorems for C9 -/

/-- C9, counterexample: in the job `["[1]", "5"]` the first chunk parses to
the nonempty array `[1]` and contributes its record, yet the whole job
returns an error — the second chunk parses to the truthy non-iterable `5`,
so `all_results.extend` raises `TypeError` and the route answers with the
exception instead of the merged records, refuting "the job returns an
error if and only if no chunk contributed any records".  And a
single-chunk job whose response parses to the object `{"k": 1}` returns
the object's keys, not records parsed from an array, refuting the
concatenation conclusion. -/
theorem extract_pdf_data_merge_counterexample :
    safe_json_loads jsonDemoLoads "[1]" = some (Json.arr [Json.num 1]) ∧
    safe_json_loads jsonDemoLoads "5" = some (Json.num 5) ∧
    extract_pdf_data_merge jsonDemoLoads ["[1]", "5"] =
      Except.error "TypeError: object is not iterable" ∧
    extract_pdf_data_merge jsonDemoLoads ["\x7b\"k\": 1\x7d"] =
      Except.ok [Json.str "k"] :=
  ⟨rfl, rfl, rfl, rfl⟩

/-- Each loop step under array-typed parses appends exactly the chunk's
contribution. -/
theorem merge_loop_eq (loads : String → Except String Json) :
    ∀ (rs : List String) (acc : List Json),
      (∀ r ∈ rs, ∀ j, safe_json_loads loads r = some j →
        ∃ l, j = Json.arr l) →
      extract_pdf_data_loop loads rs acc
        = .ok (acc ++ (rs.map (chunkRecords loads)).flatten) := by
  intro rs
  induction rs with
  | nil => intro acc _; simp [extract_pdf_data_loop]
  | cons r rs ih =>
    intro acc harr
    have hr := harr r (List.mem_cons_self r rs)
    have hrs : ∀ x ∈ rs, ∀ j, safe_json_loads loads x = some j →
        ∃ l, j = Json.arr l :=
      fun x hx => harr x (List.mem_cons_of_mem r hx)
    rw [extract_pdf_data_loop]
    cases hp : safe_json_loads loads r with
    | none =>
      show extract_pdf_data_loop loads rs acc
          = Except.ok (acc ++ ((r :: rs).map (chunkRecords loads)).flatten)
      have hrec : chunkRecords loads r = [] := by
        unfold chunkRecords
        rw [hp]
      rw [ih acc hrs, List.map_cons, List.flatten_cons, hrec,
        List.nil_append]
    | some j =>
      obtain ⟨l, rfl⟩ := hr j hp
      have hrec : chunkRecords loads r = l := by
        unfold chunkRecords
        rw [hp]
      cases l with
      | nil =>
        show extract_pdf_data_loop loads rs acc
            = Except.ok (acc ++ ((r :: rs).map (chunkRecords loads)).flatten)
        rw [ih acc hrs, List.map_cons, List.flatten_cons, hrec,
          List.nil_append]
      | cons a t =>
        show extract_pdf_data_loop loads rs (acc ++ (a :: t))
            = Except.ok (acc ++ ((r :: rs).map (chunkRecords loads)).flatten)
        rw [ih (acc ++ (a :: t)) hrs, List.map_cons, List.flatten_cons,
          hrec, List.append_assoc]

/-- C9, amended: a chunk whose response fails to parse contributes zero
records, and — provided every successfully parsed chunk response is a JSON
array, as the prompt demands — the job errors exactly when no chunk
contributed any record and otherwise returns the in-order concatenation of
the records parsed from each chunk.  Without the array proviso the claim
fails (see the counterexample): a truthy non-iterable parse aborts the
whole job with `TypeError` even when earlier chunks contributed records,
and a dictionary or string is spread into keys or characters. -/
theorem extract_pdf_data_merge_spec (loads : String → Except String Json)
    (responses : List String)
    (harr : ∀ r ∈ responses, ∀ j, safe_json_loads loads r = some j →
      ∃ l, j = Json.arr l) :
    extract_pdf_data_merge loads responses =
      (if ((responses.map (chunkRecords loads)).flatten).isEmpty
       then Except.error "No valid structured data returned"
       else Except.ok ((responses.map (chunkRecords loads)).flatten)) ∧
    ((∃ e, extract_pdf_data_merge loads responses = Except.error e) ↔
      ∀ r ∈ responses, chunkRecords loads r = []) := by
  have hall : extract_pdf_data_merge loads responses =
      (if ((responses.map (chunkRecords loads)).flatten).isEmpty
       then Except.error "No valid structured data returned"
       else Except.ok ((responses.map (chunkRecords loads)).flatten)) := by
    unfold extract_pdf_data_merge
    rw [merge_loop_eq loads responses [] harr]
    simp only [List.nil_append]
  refine ⟨hall, ?_⟩
  rw [hall]
  cases hflat : (responses.map (chunkRecords loads)).flatten with
  | nil =>
    simp only [List.isEmpty_nil, if_true]
    constructor
    · intro _ r hr
      exact List.flatten_eq_nil_iff.mp hflat _ (List.mem_map_of_mem _ hr)
    · intro _
      exact ⟨"No valid structured data returned", rfl⟩
  | cons a t =>
    simp only [List.isEmpty_cons, Bool.false_eq_true, if_false]
    constructor
    · rintro ⟨e, he⟩
      exact Except.noConfusion he
    · intro hempty
      exfalso
      have : (responses.map (chunkRecords loads)).flatten = [] := by
        refine List.flatten_eq_nil_iff.mpr ?_
        intro xs hxs
        obtain ⟨r, hr, rfl⟩ := List.mem_map.mp hxs
        exact hempty r hr
      rw [hflat] at this
      exact List.noConfusion this

/-- C9, witness: the amended theorem applied to the concrete parser and the
chunk responses `["[1]", "nonsense"]`, whose successful parses are all
arrays; the merge returns the single record of the first chunk. -/
theorem extract_pdf_data_merge_spec_witness :
    (∀ r ∈ (["[1]", "nonsense"] : List String), ∀ j,
        safe_json_loads jsonDemoLoads r = some j → ∃ l, j = Json.arr l) ∧
    (extract_pdf_data_merge jsonDemoLoads ["[1]", "nonsense"] =
      (if (((["[1]", "nonsense"] : List String).map
            (chunkRecords jsonDemoLoads)).flatten).isEmpty
       then Except.error "No valid structured data returned"
       else Except.ok (((["[1]", "nonsense"] : List String).map
            (chunkRecords jsonDemoLoads)).flatten)) ∧
    ((∃ e, extract_pdf_data_merge jsonDemoLoads ["[1]", "nonsense"]
        = Except.error e) ↔
      ∀ r ∈ (["[1]", "nonsense"] : List String),
        chunkRecords jsonDemoLoads r = [])) := by
  have harr : ∀ r ∈ (["[1]", "nonsense"] : List String), ∀ j,
      safe_json_loads jsonDemoLoads r = some j → ∃ l, j = Json.arr l := by
    intro r hr j hj
    rcases List.mem_cons.mp hr with rfl | hr2
    · have hv : safe_json_loads jsonDemoLoads "[1]"
          = some (Json.arr [Json.num 1]) := rfl
      rw [hv] at hj
      injection hj with hje
      exact ⟨[Json.num 1], hje.symm⟩
    · rcases List.mem_cons.mp hr2 with rfl | hr3
      · have hv : safe_json_loads jsonDemoLoads "nonsense" = none := rfl
        rw [hv] at hj
        exact Option.noConfusion hj
      · cases hr3
  exact ⟨harr, extract_pdf_data_merge_spec jsonDemoLoads _ harr⟩

/-! ## Reconciler identifier-column detection (`map_extracted`)

`curriculum-mappin/v3/app.py` lines 119–121:
`uuid_col = next((c for c in ref_df.columns if "uuid" in c.lower() or "id" in c.lower()), None)`
followed by `if not uuid_col: return error` before any generation call.
`curriculum-mappin/v1/index2_backup.py` lines 173–175 use
`"uuid" in c.lower() or "id" == c.lower()` instead. -/

/-- Column detection of `v3/app.py`: the first column whose lowercased name
contains `uuid` or contains `id`. -/
def findUuidCol_v3 (cols : List String) : Option String :=
  cols.find? (fun c =>
    pyContains (pyLower c).data "uuid".data || pyContains (pyLower c).data "id".data)

/-- Column detection of `v1/index2_backup.py`: the first column whose
lowercased name contains `uuid` or equals `id`. -/
def findUuidCol_backup (cols : List String) : Option String :=
  cols.find? (fun c =>
    pyContains (pyLower c).data "uuid".data || pyLower c == "id")

/-- The configuration gate of `v3/app.py`'s `map_extracted`: on a missing
(or falsy, i.e. empty) identifier column, fail before the model is called;
otherwise proceed with exactly one generation call.  The second component
counts generator invocations. -/
def map_extracted (cols : List String) : Except String String × Nat :=
  match findUuidCol_v3 cols with
  | none => (Except.error "CSV must contain a UUID column", 0)
  | some c =>
    if c = "" then (Except.error "CSV must contain a UUID column", 0)
    else (Except.ok c, 1)

/-! ## Theorems for C7 -/

/-- C7, counterexample: the column set `["video"]` has no column containing
`uuid` and none equal to `id`, yet `v3/app.py` detects `video` (its
lowercase form contains the substring `id`) and proceeds to the generation
call instead of failing with a configuration error. -/
theorem map_extracted_video_counterexample :
    pyContains (pyLower "video").data "uuid".data = false ∧
    pyLower "video" ≠ "id" ∧
    map_extracted ["video"] = (Except.ok "video", 1) := by
  refine ⟨by decide, by decide, rfl⟩

/-- C7, amended: in `v3/app.py` the identifier column is detected when some
column name contains `uuid` or contains `id` case-insensitively (so `id`
itself is detected, but so is e.g. `video`); exactly when no such column
exists the call fails with the configuration error before any generation
call (zero generator invocations), and otherwise exactly one generation
call is made.  The backup variant detects a column containing `uuid` or
equal to `id`, as the original claim stated. -/
theorem map_extracted_spec (cols : List String) :
    (findUuidCol_v3 cols = none ↔
      ∀ c ∈ cols, pyContains (pyLower c).data "uuid".data = false ∧
        pyContains (pyLower c).data "id".data = false) ∧
    (findUuidCol_v3 cols = none →
      map_extracted cols = (Except.error "CSV must contain a UUID column", 0)) ∧
    (∀ c, findUuidCol_v3 cols = some c → map_extracted cols = (Except.ok c, 1)) ∧
    (findUuidCol_backup cols = none ↔
      ∀ c ∈ cols, pyContains (pyLower c).data "uuid".data = false ∧
        pyLower c ≠ "id") ∧
    findUuidCol_v3 ["id"] = some "id" ∧
    findUuidCol_backup ["id"] = some "id" := by
  refine ⟨?_, ?_, ?_, ?_, by decide, by decide⟩
  · unfold findUuidCol_v3
    rw [List.find?_eq_none]
    constructor
    · intro h c hc
      have := h c hc
      simp only [Bool.or_eq_true, not_or, Bool.not_eq_true] at this
      exact this
    · intro h c hc
      have := h c hc
      simp only [Bool.or_eq_true, not_or, Bool.not_eq_true]
      exact this
  · intro h
    unfold map_extracted
    rw [h]
  · intro c hc
    have hp := List.find?_some hc
    have hcne : c ≠ "" := by
      intro he
      subst he
      exact absurd hp (by decide)
    unfold map_extracted
    rw [hc]
    simp [hcne]
  · unfold findUuidCol_backup
    rw [List.find?_eq_none]
    constructor
    · intro h c hc
      have := h c hc
      simp only [Bool.or_eq_true, not_or, Bool.not_eq_true, beq_iff_eq] at this
      exact this
    · intro h c hc
      have := h c hc
      simp only [Bool.or_eq_true, not_or, Bool.not_eq_true, beq_iff_eq]
      exact this

/-- C7, witness: a reference set whose only column is `grade` (no `uuid`,
no `id` substring) fails with the configuration error and zero generation
calls. -/
theorem map_extracted_spec_witness :
    map_extracted ["grade"] = (Except.error "CSV must contain a UUID column", 0) :=
  (map_extracted_spec ["grade"]).2.1 (by decide)

/-! ## PromptBuilder truncation (`extract_pdf_data` of v3 and v2)

`curriculum-mappin/v3/app.py` lines 69–77 interpolate `pdf_text[:180000]`
into the single generation prompt (there is no chunk loop in this variant);
`curriculum-mappin/v2/index_v2.py` lines 46–55 interpolate
`pdf_text[:15000]`. -/

/-- The single generation prompt of `v3/app.py`. -/
def buildPrompt_v3 (pdf_text : String) : String :=
  "\nExtract structured educational data from this PDF text.\nReturn JSON list in this exact format:\n[\x7b\"chapter\": \"...\", \"title\": \"...\", \"topic\": \"...\", \"description\": \"...\"\x7d]\n\nText:\n"
    ++ ⟨pdf_text.data.take 180000⟩ ++ "\n"

/-- The single generation prompt of `v2/index_v2.py`. -/
def buildPrompt_v2 (pdf_text : String) : String :=
  "\nExtract structured educational data from this PDF text.\nReturn only a JSON array of objects with keys:\n[\"title\", \"chapter\", \"topic\", \"description\"]\n\nPDF Content:\n"
    ++ ⟨pdf_text.data.take 15000⟩ ++ "\n"

/-! ## Theorems for C10 -/

/-- C10: the v3 prompt depends only on the first 180000 characters of the
extracted text — replacing the text by its 180000-character truncation
yields the identical prompt, so characters past the bound are silently
dropped and can never contribute to the output of the variant's single
generation call; the v2 prompt does the same with a 15000-character
bound. -/
theorem buildPrompt_truncates (t : String) :
    buildPrompt_v3 t = buildPrompt_v3 ⟨t.data.take 180000⟩ ∧
    buildPrompt_v2 t = buildPrompt_v2 ⟨t.data.take 15000⟩ := by
  constructor
  · unfold buildPrompt_v3
    have h : ((⟨t.data.take 180000⟩ : String).data.take 180000) = t.data.take 180000 := by
      rw [show (⟨t.data.take 180000⟩ : String).data = t.data.take 180000 from rfl,
        List.take_take]
      simp
    rw [h]
  · unfold buildPrompt_v2
    have h : ((⟨t.data.take 15000⟩ : String).data.take 15000) = t.data.take 15000 := by
      rw [show (⟨t.data.take 15000⟩ : String).data = t.data.take 15000 from rfl,
        List.take_take]
      simp
    rw [h]
